import Mathlib

/-!
# Verification of the multi-restaurant-server order lifecycle subsystem

Shallow embedding of the order lifecycle routes (`src/routes/orders.ts`),
the auth middleware (`src/middleware/auth.ts`) and the register route
(`src/routes/auth.ts`) of the multi-restaurant server, together with proofs
of the specified properties.

Modelling conventions:
* JavaScript numbers used as money are modelled by `Int` (exact arithmetic;
  the properties verified here concern the algebraic structure of the
  computation, not floating-point rounding).
* Prisma `findUnique({ where: ... })` over a table is modelled by `List.find?`
  over a list of rows.
* A route handler is a function from the request data and the current store
  state to the new store state, an `Except` result, and the list of socket.io
  events it emits (`io.to(channel).emit(name, payload)`).
* `prisma.$transaction` is modelled by the fact that the store is returned
  unchanged on every error path: either the order with all its lines and
  customization snapshots is appended, or nothing is.
-/

namespace RestaurantServer

/-- Roles, from `UserRole` in `src/middleware/auth.ts`. -/
inductive Role where
  | ADMIN
  | KITCHEN
  | WAITER
  | CUSTOMER
deriving DecidableEq, Repr

/-- Order statuses, from `OrderStatus` in `src/routes/orders.ts`. -/
inductive OrderStatus where
  | PENDING
  | IN_PROGRESS
  | COMPLETED
  | CANCELLED
deriving DecidableEq, Repr

/-- A `Location` row (fields relevant to the order routes). -/
structure Location where
  id : Nat
  isActive : Bool
deriving DecidableEq, Repr

/-- A `Menu` row (fields relevant to the order routes). -/
structure Menu where
  id : Nat
  price : Int
  isAvailable : Bool
  locationId : Nat
deriving DecidableEq, Repr

/-- A `Customization` row (fields relevant to the order routes). -/
structure Customization where
  id : Nat
  price : Int
  menuId : Nat
deriving DecidableEq, Repr

/-- The read-only catalog tables consulted during order creation. -/
structure Catalog where
  locations : List Location
  menus : List Menu
  customizations : List Customization
deriving DecidableEq, Repr

/-- Models `prisma.location.findUnique({ where: { id, isActive: true } })`. -/
def findLocationActive (cat : Catalog) (id : Nat) : Option Location :=
  cat.locations.find? (fun l => l.id == id && l.isActive)

/-- Models `prisma.menu.findUnique({ where: { id, isAvailable: true } })`:
the lookup filters on the availability flag, so an unavailable item is
indistinguishable from an absent one. -/
def findMenuAvailable (cat : Catalog) (id : Nat) : Option Menu :=
  cat.menus.find? (fun m => m.id == id && m.isAvailable)

/-- Models `prisma.customization.findUnique({ where: { id } })`. -/
def findCustomization (cat : Catalog) (id : Nat) : Option Customization :=
  cat.customizations.find? (fun c => c.id == id)

/-- A customization reference inside a cart entry.  The `quantity` field is
caller-supplied JSON with no validator rule, so it may be absent. -/
structure CartCustomization where
  customizationId : Nat
  quantity : Option Int
deriving DecidableEq, Repr

/-- One cart entry of the create-order request body. -/
structure CartItem where
  menuId : Nat
  quantity : Int
  customizations : Option (List CartCustomization)
deriving DecidableEq, Repr

/-- Models `customization.quantity || 1`: an absent field and the falsy value `0`
both become `1`; every other value (negative included) is used as-is. -/
def effQty : Option Int → Int
  | none => 1
  | some n => if n = 0 then 1 else n

/-- The express-validator rules on the create-order body that constrain
values (`items` is a non-empty array, every `items.*.quantity` is an integer
`≥ 1`).  There is no rule on customization quantities. -/
def validOrderBody (items : List CartItem) : Bool :=
  decide (1 ≤ items.length) && items.all (fun it => decide (1 ≤ it.quantity))

/-- The typed errors raised by the embedded routes; each constructor records
one `createError(message, statusCode)` site of the source (or, for
`StoreRecordNotFound`, the rejection of a Prisma `update` whose `where`
clause matches no row). -/
inductive ApiError where
  /-- Models `createError('Validation failed', 400)`. -/
  | ValidationFailed
  /-- Models `createError('Location not found', 404)`. -/
  | LocationNotFound
  /-- Models `createError('Menu item with ID .. not found', 404)`. -/
  | ItemNotFound (menuId : Nat)
  /-- Models `createError('Menu item .. not available at this location', 400)`. -/
  | LocationMismatch (menuId : Nat)
  /-- Models `createError('Customization with ID .. not found', 404)`. -/
  | CustomizationNotFound (customizationId : Nat)
  /-- Models `createError('Order not found', 404)`. -/
  | OrderNotFound
  /-- Models `403` from `requireRole` (`Insufficient permissions`) or from the
  cancel route (`Not authorized to cancel this order`). -/
  | Forbidden
  /-- Models `createError('Can only cancel pending orders', 400)`. -/
  | InvalidTransition
  /-- Models `prisma.order.update` rejecting because no row has the given id
  (Prisma error `P2025`); this is not a `createError('Order not found', 404)`
  raised by route code. -/
  | StoreRecordNotFound
  /-- Models `createError('User already exists with this email', 409)`. -/
  | EmailConflict
deriving DecidableEq, Repr

/-- An `OrderItemCustomization` row: the snapshot persisted for one
customization reference. -/
structure OrderLineCustomization where
  customizationId : Nat
  quantity : Int
  priceAtTime : Int
deriving DecidableEq, Repr

/-- An `OrderItem` row with its customization snapshots. -/
structure OrderLine where
  menuId : Nat
  quantity : Int
  priceAtTime : Int
  customizations : List OrderLineCustomization
deriving DecidableEq, Repr

/-- An `Order` row with its nested `OrderItem` and `OrderItemCustomization`
rows. -/
structure StoredOrder where
  id : Nat
  userId : Nat
  locationId : Nat
  status : OrderStatus
  total : Int
  items : List OrderLine
deriving DecidableEq, Repr

/-- The order table.  Lines and customization snapshots are nested inside
their order, so `store` unchanged means no Order, OrderItem or
OrderItemCustomization row was created. -/
abbrev Store := List StoredOrder

/-- A socket.io room: `location_<id>` or `user_<id>`. -/
inductive Channel where
  | location (id : Nat)
  | user (id : Nat)
deriving DecidableEq, Repr

/-- One `io.to(channel).emit(event, payload)` call. -/
structure Emit where
  channel : Channel
  event : String
  payload : StoredOrder
deriving DecidableEq, Repr

/-- Sequential effectful map over a list, short-circuiting on the first
error (the resolution loop of the create-order route). -/
def exceptMap {α β : Type} (f : α → Except ApiError β) : List α → Except ApiError (List β)
  | [] => .ok []
  | a :: as =>
    match f a with
    | .error e => .error e
    | .ok b =>
      match exceptMap f as with
      | .error e => .error e
      | .ok bs => .ok (b :: bs)

/-- The cost contributed by one customization reference:
`customizationItem.price * (customization.quantity || 1)`, failing when the
customization id resolves to nothing. -/
def custCost (cat : Catalog) (cc : CartCustomization) : Except ApiError Int :=
  match findCustomization cat cc.customizationId with
  | none => .error (.CustomizationNotFound cc.customizationId)
  | some cz => .ok (cz.price * effQty cc.quantity)

/-- The enriched cart entry `{ ...item, menuItem, itemTotal }` produced by
the resolution loop. -/
structure PricedItem where
  item : CartItem
  menuItem : Menu
  itemTotal : Int
deriving DecidableEq, Repr

/-- Resolution and pricing of one cart entry (the body of the `items.map`
in the create-order route): resolve the menu item through the
availability-filtered lookup, reject a location mismatch, price the
customizations, and compute
`itemTotal = price * quantity + (Σ customization costs) * quantity`. -/
def priceCartItem (cat : Catalog) (locationId : Nat) (item : CartItem) :
    Except ApiError PricedItem :=
  match findMenuAvailable cat item.menuId with
  | none => .error (.ItemNotFound item.menuId)
  | some m =>
    if m.locationId ≠ locationId then
      .error (.LocationMismatch item.menuId)
    else
      match exceptMap (custCost cat) (item.customizations.getD []) with
      | .error e => .error e
      | .ok costs => .ok ⟨item, m, m.price * item.quantity + costs.sum * item.quantity⟩

/-- The snapshot row the transaction writes for one customization reference:
`{ customizationId, quantity: customization.quantity || 1,
priceAtTime: customizationItem!.price }`.  The prior pricing pass guarantees
the lookup succeeds (mirroring the `!` assertion of the source). -/
def snapCustomization (cat : Catalog) (cc : CartCustomization) :
    Option OrderLineCustomization :=
  (findCustomization cat cc.customizationId).map
    (fun cz => ⟨cc.customizationId, effQty cc.quantity, cz.price⟩)

/-- The `OrderItem` row (with snapshots) the transaction writes for one
priced cart entry: `priceAtTime` is the resolved menu item's current price. -/
def buildOrderLine (cat : Catalog) (p : PricedItem) : OrderLine :=
  { menuId := p.item.menuId
    quantity := p.item.quantity
    priceAtTime := p.menuItem.price
    customizations := (p.item.customizations.getD []).filterMap (snapCustomization cat) }

/-- The customization part of a stored line's value:
`Σ snapshot priceAtTime × snapshot quantity`. -/
def lineCustCost (cs : List OrderLineCustomization) : Int :=
  (cs.map (fun c => c.priceAtTime * c.quantity)).sum

/-- The value of a stored line recomputed from its snapshot fields:
`priceAtTime × quantity + (Σ customization priceAtTime × customization
quantity) × quantity`. -/
def lineTotal (l : OrderLine) : Int :=
  l.priceAtTime * l.quantity + lineCustCost l.customizations * l.quantity

/-- The order total recomputed from stored snapshot fields. -/
def orderTotal (ls : List OrderLine) : Int :=
  (ls.map lineTotal).sum

deriving instance DecidableEq for Except

/-- The outcome of a route handler: the store afterwards, the result, and
the emitted socket.io events. -/
structure RouteResult where
  store : Store
  result : Except ApiError StoredOrder
  events : List Emit
deriving DecidableEq, Repr

/-- The `Order` row the transaction inserts (`status: PENDING`, the
accumulated total) together with its nested line and snapshot rows. -/
def freshOrder (cat : Catalog) (store : Store) (userId locationId : Nat)
    (priced : List PricedItem) : StoredOrder :=
  { id := store.length + 1
    userId := userId
    locationId := locationId
    status := .PENDING
    total := (priced.map (fun p => p.itemTotal)).sum
    items := priced.map (buildOrderLine cat) }

/-- Models `POST /` (create order): body validation, active-location lookup, the
resolution/pricing pass over the cart, then the transaction inserting the
`PENDING` order with its lines and customization snapshots, then the two
emits (`newOrder` to the location room, `orderCreated` to the user room). -/
def createOrder (cat : Catalog) (store : Store) (userId locationId : Nat)
    (items : List CartItem) : RouteResult :=
  if validOrderBody items then
    match findLocationActive cat locationId with
    | none => ⟨store, .error .LocationNotFound, []⟩
    | some _ =>
      match exceptMap (priceCartItem cat locationId) items with
      | .error e => ⟨store, .error e, []⟩
      | .ok priced =>
        let newOrder := freshOrder cat store userId locationId priced
        ⟨store ++ [newOrder], .ok newOrder,
          [⟨.location locationId, "newOrder", newOrder⟩,
           ⟨.user userId, "orderCreated", newOrder⟩]⟩
  else ⟨store, .error .ValidationFailed, []⟩

/-- Models `prisma.order.findUnique({ where: { id } })`. -/
def findOrder (store : Store) (orderId : Nat) : Option StoredOrder :=
  store.find? (fun o => o.id == orderId)

/-- Models `prisma.order.update({ where: { id }, data: { status } })`, the row
mutation part. -/
def updateStoredStatus (store : Store) (orderId : Nat) (st : OrderStatus) : Store :=
  store.map (fun o => if o.id = orderId then { o with status := st } else o)

/-- Models `requireRole(roles)`: rejects with `403` unless the caller's role is in
the allow-list. -/
def requireRole (roles : List Role) (r : Role) : Bool :=
  roles.contains r

/-- Models `requireKitchenOrAdmin = requireRole([UserRole.KITCHEN, UserRole.ADMIN])`. -/
def requireKitchenOrAdmin (r : Role) : Bool :=
  requireRole [.KITCHEN, .ADMIN] r

/-- The authenticated caller (`req.user` decoded from the JWT). -/
structure Caller where
  id : Nat
  role : Role
deriving DecidableEq, Repr

/-- Models `PATCH /:id/status`: after `requireKitchenOrAdmin`, the route updates
the order's status unconditionally — there is no lookup of the current
status and no transition guard.  The `body('status').isIn([...])` validator
is reflected in the typed `newStatus : OrderStatus` argument.  A missing id
surfaces as the store's record-not-found rejection, not as the route-level
`Order not found` error.  On success it emits `orderStatusUpdated` to the
location room and to the owner's user room. -/
def setOrderStatus (store : Store) (callerRole : Role) (orderId : Nat)
    (newStatus : OrderStatus) : RouteResult :=
  if requireKitchenOrAdmin callerRole then
    match findOrder store orderId with
    | none => ⟨store, .error .StoreRecordNotFound, []⟩
    | some o =>
      let updated := { o with status := newStatus }
      ⟨updateStoredStatus store orderId newStatus, .ok updated,
        [⟨.location updated.locationId, "orderStatusUpdated", updated⟩,
         ⟨.user updated.userId, "orderStatusUpdated", updated⟩]⟩
  else ⟨store, .error .Forbidden, []⟩

/-- Models `PATCH /:id/cancel`: look the order up (`Order not found` on a missing
id), reject a CUSTOMER who does not own it (`403`), reject any status other
than `PENDING` (`Can only cancel pending orders`), otherwise set the status
to `CANCELLED` and emit `orderCancelled` to the location room and the
owner's user room. -/
def cancelOrder (store : Store) (caller : Caller) (orderId : Nat) : RouteResult :=
  match findOrder store orderId with
  | none => ⟨store, .error .OrderNotFound, []⟩
  | some o =>
    if caller.role = .CUSTOMER ∧ o.userId ≠ caller.id then
      ⟨store, .error .Forbidden, []⟩
    else if o.status ≠ .PENDING then
      ⟨store, .error .InvalidTransition, []⟩
    else
      let updated := { o with status := OrderStatus.CANCELLED }
      ⟨updateStoredStatus store orderId .CANCELLED, .ok updated,
        [⟨.location o.locationId, "orderCancelled", updated⟩,
         ⟨.user o.userId, "orderCancelled", updated⟩]⟩

/-- Models `GET /:id`: `findUnique` with a where clause that additionally pins
`userId` to the caller when the caller is a CUSTOMER; `Order not found` when
nothing matches.  (The `include` clauses hydrate the response and do not
affect which row is found.) -/
def getOrderById (store : Store) (caller : Caller) (orderId : Nat) :
    Except ApiError StoredOrder :=
  match store.find? (fun o =>
      o.id == orderId &&
      (if caller.role = Role.CUSTOMER then o.userId == caller.id else true)) with
  | none => .error .OrderNotFound
  | some o => .ok o

/-- The where clause of `GET /` (list orders): `userId` pinned for a
CUSTOMER caller, plus the optional `status` and `locationId` query filters.
Ordering and pagination (`orderBy`/`skip`/`take`) select a window of this
filtered list and are not modelled; membership in the response is always
membership here. -/
def listOrders (store : Store) (caller : Caller) (statusFilter : Option OrderStatus)
    (locationFilter : Option Nat) : List StoredOrder :=
  store.filter (fun o =>
    (if caller.role = Role.CUSTOMER then o.userId == caller.id else true) &&
    (match statusFilter with | none => true | some s => o.status == s) &&
    (match locationFilter with | none => true | some l => o.locationId == l))

/-- A `User` row (fields relevant to registration). -/
structure UserRow where
  id : Nat
  email : String
  role : String
deriving DecidableEq, Repr

/-- The allow-list of `body('role').optional().isIn([...])` on
`POST /register`. -/
def roleStrings : List String :=
  ["CUSTOMER", "WAITER", "KITCHEN", "ADMIN"]

/-- Models `POST /register`: the route is mounted with no authentication
middleware (`router.post('/register', [validators], handler)` — no
`authenticateToken`), so any caller may invoke it.  Validation accepts an
optional caller-supplied `role` from `roleStrings` and a password of length
`≥ 6`; a duplicate email is a `409`; otherwise the user is persisted with
`role = req.body.role`, defaulting to `'CUSTOMER'` when absent.
(The `isEmail` format check and password hashing are transport/validator
mechanics and are not modelled.) -/
def register (users : List UserRow) (email password : String)
    (role : Option String) : List UserRow × Except ApiError UserRow :=
  if decide (6 ≤ password.length) && role.all (fun r => roleStrings.contains r) then
    if users.any (fun u => u.email == email) then
      (users, .error .EmailConflict)
    else
      let u : UserRow := { id := users.length + 1, email := email, role := role.getD "CUSTOMER" }
      (users ++ [u], .ok u)
  else (users, .error .ValidationFailed)

/-! ## Helper lemmas -/

theorem exceptMap_ok_forall {α β : Type} {f : α → Except ApiError β}
    {l : List α} {bs : List β} (h : exceptMap f l = .ok bs) :
    List.Forall₂ (fun a b => f a = .ok b) l bs := by
  induction l generalizing bs with
  | nil =>
    simp only [exceptMap] at h
    cases h
    exact List.Forall₂.nil
  | cons a as ih =>
    simp only [exceptMap] at h
    cases hfa : f a with
    | error e => rw [hfa] at h; exact absurd h (by simp)
    | ok b =>
      rw [hfa] at h
      cases hrec : exceptMap f as with
      | error e => rw [hrec] at h; exact absurd h (by simp)
      | ok bs2 =>
        rw [hrec] at h
        injection h with h
        subst h
        exact List.Forall₂.cons hfa (ih hrec)

theorem exceptMap_error_of_mem {α β : Type} {f : α → Except ApiError β}
    {l : List α} {a : α} {e : ApiError} (hmem : a ∈ l) (hfa : f a = .error e) :
    ∃ e2, exceptMap f l = .error e2 := by
  induction l with
  | nil => cases hmem
  | cons x xs ih =>
    cases hmem with
    | head => exact ⟨e, by simp [exceptMap, hfa]⟩
    | tail _ hmem2 =>
      cases hfx : f x with
      | error e3 => exact ⟨e3, by simp [exceptMap, hfx]⟩
      | ok b =>
        obtain ⟨e2, h2⟩ := ih hmem2
        exact ⟨e2, by simp [exceptMap, hfx, h2]⟩

theorem forallRight_of_forall₂ {α β : Type} {R : α → β → Prop}
    {l1 : List α} {l2 : List β} (h : List.Forall₂ R l1 l2) :
    ∀ b ∈ l2, ∃ a ∈ l1, R a b := by
  induction h with
  | nil => intro b hb; cases hb
  | cons hr _ ih =>
    intro b hb
    cases hb with
    | head => exact ⟨_, List.mem_cons_self _ _, hr⟩
    | tail _ hb2 =>
      obtain ⟨a, ha, hra⟩ := ih b hb2
      exact ⟨a, List.mem_cons_of_mem _ ha, hra⟩

theorem custCost_ok {cat : Catalog} {cc : CartCustomization} {cost : Int}
    (h : custCost cat cc = .ok cost) :
    ∃ cz, findCustomization cat cc.customizationId = some cz ∧
      snapCustomization cat cc = some ⟨cc.customizationId, effQty cc.quantity, cz.price⟩ ∧
      cost = cz.price * effQty cc.quantity := by
  unfold custCost at h
  cases hf : findCustomization cat cc.customizationId with
  | none => rw [hf] at h; exact absurd h (by simp)
  | some cz =>
    rw [hf] at h
    injection h with h
    exact ⟨cz, rfl, by simp [snapCustomization, hf], h.symm⟩

theorem custList_ok {cat : Catalog} {ccs : List CartCustomization} {costs : List Int}
    (h : exceptMap (custCost cat) ccs = .ok costs) :
    List.Forall₂
      (fun cc lc => lc.customizationId = cc.customizationId ∧
        lc.quantity = effQty cc.quantity ∧
        ∃ cz, findCustomization cat cc.customizationId = some cz ∧
          lc.priceAtTime = cz.price)
      ccs (ccs.filterMap (snapCustomization cat)) ∧
    lineCustCost (ccs.filterMap (snapCustomization cat)) = costs.sum := by
  induction ccs generalizing costs with
  | nil =>
    simp only [exceptMap] at h
    cases h
    exact ⟨List.Forall₂.nil, by simp [lineCustCost]⟩
  | cons cc ccs ih =>
    simp only [exceptMap] at h
    cases hfa : custCost cat cc with
    | error e => rw [hfa] at h; exact absurd h (by simp)
    | ok cost =>
      rw [hfa] at h
      cases hrec : exceptMap (custCost cat) ccs with
      | error e => rw [hrec] at h; exact absurd h (by simp)
      | ok costs2 =>
        rw [hrec] at h
        injection h with h
        subst h
        obtain ⟨cz, hcz, hsnap, hcost⟩ := custCost_ok hfa
        obtain ⟨ihf, ihsum⟩ := ih hrec
        rw [List.filterMap_cons, hsnap]
        constructor
        · exact List.Forall₂.cons ⟨rfl, rfl, cz, hcz, rfl⟩ ihf
        · simp only [lineCustCost, List.map_cons, List.sum_cons] at ihsum ⊢
          rw [hcost, ihsum]

theorem priceCartItem_ok {cat : Catalog} {lid : Nat} {item : CartItem}
    {p : PricedItem} (h : priceCartItem cat lid item = .ok p) :
    p.item = item ∧
    findMenuAvailable cat item.menuId = some p.menuItem ∧
    p.menuItem.locationId = lid ∧
    ∃ costs, exceptMap (custCost cat) (item.customizations.getD []) = .ok costs ∧
      p.itemTotal = p.menuItem.price * item.quantity + costs.sum * item.quantity := by
  unfold priceCartItem at h
  split at h
  next => exact absurd h (by simp)
  next m hm =>
    split at h
    next => exact absurd h (by simp)
    next hl =>
      push_neg at hl
      split at h
      next => exact absurd h (by simp)
      next costs hc =>
        injection h with h
        subst h
        exact ⟨rfl, hm, hl, costs, hc, rfl⟩

theorem buildOrderLine_spec {cat : Catalog} {lid : Nat} {item : CartItem}
    {p : PricedItem} (h : priceCartItem cat lid item = .ok p) :
    lineTotal (buildOrderLine cat p) = p.itemTotal ∧
    (buildOrderLine cat p).menuId = item.menuId ∧
    (buildOrderLine cat p).quantity = item.quantity ∧
    (buildOrderLine cat p).priceAtTime = p.menuItem.price ∧
    List.Forall₂
      (fun cc lc => lc.customizationId = cc.customizationId ∧
        lc.quantity = effQty cc.quantity ∧
        ∃ cz, findCustomization cat cc.customizationId = some cz ∧
          lc.priceAtTime = cz.price)
      (item.customizations.getD []) (buildOrderLine cat p).customizations := by
  obtain ⟨hpi, hm, hl, costs, hc, htot⟩ := priceCartItem_ok h
  obtain ⟨hf, hsum⟩ := custList_ok hc
  refine ⟨?_, by simp [buildOrderLine, hpi], by simp [buildOrderLine, hpi],
    by simp [buildOrderLine], by simpa [buildOrderLine, hpi] using hf⟩
  simp only [lineTotal, buildOrderLine, hpi, hsum, htot]

theorem createOrder_ok {cat : Catalog} {store : Store} {uid lid : Nat}
    {items : List CartItem} {o : StoredOrder}
    (h : (createOrder cat store uid lid items).result = .ok o) :
    ∃ priced, exceptMap (priceCartItem cat lid) items = .ok priced ∧
      o = freshOrder cat store uid lid priced ∧
      createOrder cat store uid lid items =
        ⟨store ++ [o], .ok o,
          [⟨.location lid, "newOrder", o⟩, ⟨.user uid, "orderCreated", o⟩]⟩ := by
  by_cases hv : validOrderBody items = true
  · cases hloc : findLocationActive cat lid with
    | none =>
      have hr : createOrder cat store uid lid items = ⟨store, .error .LocationNotFound, []⟩ := by
        unfold createOrder; rw [if_pos hv, hloc]
      rw [hr] at h; exact absurd h (by simp)
    | some l =>
      cases hmap : exceptMap (priceCartItem cat lid) items with
      | error e =>
        have hr : createOrder cat store uid lid items = ⟨store, .error e, []⟩ := by
          unfold createOrder; rw [if_pos hv, hloc, hmap]
        rw [hr] at h; exact absurd h (by simp)
      | ok priced =>
        have hr : createOrder cat store uid lid items =
            ⟨store ++ [freshOrder cat store uid lid priced],
             .ok (freshOrder cat store uid lid priced),
             [⟨.location lid, "newOrder", freshOrder cat store uid lid priced⟩,
              ⟨.user uid, "orderCreated", freshOrder cat store uid lid priced⟩]⟩ := by
          unfold createOrder; rw [if_pos hv, hloc, hmap]
        rw [hr] at h
        have ho : o = freshOrder cat store uid lid priced := by
          have h2 : Except.ok (freshOrder cat store uid lid priced) = Except.ok o := h
          injection h2 with h2
          exact h2.symm
        subst ho
        exact ⟨priced, rfl, rfl, hr⟩
  · have hr : createOrder cat store uid lid items = ⟨store, .error .ValidationFailed, []⟩ := by
      unfold createOrder; rw [if_neg hv]
    rw [hr] at h; exact absurd h (by simp)

theorem findOrder_updateStoredStatus (store : Store) (orderId : Nat) (st : OrderStatus) :
    findOrder (updateStoredStatus store orderId st) orderId =
      (findOrder store orderId).map (fun o => { o with status := st }) := by
  induction store with
  | nil => rfl
  | cons o rest ih =>
    simp only [updateStoredStatus, List.map_cons]
    by_cases h : o.id = orderId
    · rw [if_pos h]
      unfold findOrder
      rw [List.find?_cons_of_pos _ (by simp [h]), List.find?_cons_of_pos _ (by simp [h])]
      rfl
    · rw [if_neg h]
      unfold findOrder
      rw [List.find?_cons_of_neg _ (by simp [h]), List.find?_cons_of_neg _ (by simp [h])]
      exact ih

theorem requireKitchenOrAdmin_iff (r : Role) :
    requireKitchenOrAdmin r = true ↔ (r = .KITCHEN ∨ r = .ADMIN) := by
  cases r <;> simp [requireKitchenOrAdmin, requireRole]

theorem find_none_of_findOrder_none {store : Store} {orderId : Nat}
    (h : findOrder store orderId = none) (p : StoredOrder → Bool) :
    store.find? (fun o => o.id == orderId && p o) = none := by
  unfold findOrder at h
  rw [List.find?_eq_none] at h ⊢
  intro o ho
  simp only [Bool.and_eq_true, not_and]
  intro hid
  exact absurd hid (h o ho)

/-! ## Concrete fixtures used by witnesses and counterexamples -/

/-- A catalog with active location `1`, available menu item `5` (price 10)
at location `1`, and customization `7` (price 2) on menu item `5`. -/
def catW : Catalog :=
  ⟨[⟨1, true⟩], [⟨5, 10, true, 1⟩], [⟨7, 2, 5⟩]⟩

/-- The end-to-end cart of the specification: 2 × item `5` with 1 ×
customization `7`. -/
def cartW : List CartItem :=
  [⟨5, 2, some [⟨7, some 1⟩]⟩]

/-- The order `createOrder catW [] 9 1 cartW` persists. -/
def orderW : StoredOrder :=
  ⟨1, 9, 1, .PENDING, 24, [⟨5, 2, 10, [⟨7, 1, 2⟩]⟩]⟩

/-! ## Claim theorems -/

/-- C1: for every valid cart (one whose creation succeeds), the created
order's status is `PENDING`, its stored total equals
`Σ lines (priceAtTime × quantity + (Σ customization priceAtTime ×
customization quantity) × quantity)` recomputed from the stored snapshot
fields, every line snapshots the resolved menu item's price at creation as
`priceAtTime`, every customization line snapshots the resolved
customization's price at creation as `priceAtTime`, and the order is
persisted. -/
theorem order_creation_snapshot_total (cat : Catalog) (store : Store)
    (uid lid : Nat) (items : List CartItem) (o : StoredOrder)
    (h : (createOrder cat store uid lid items).result = .ok o) :
    o.status = .PENDING ∧
    o.total = orderTotal o.items ∧
    List.Forall₂ (fun (item : CartItem) (line : OrderLine) =>
        line.menuId = item.menuId ∧
        line.quantity = item.quantity ∧
        (∃ m, findMenuAvailable cat item.menuId = some m ∧
          m.locationId = lid ∧ line.priceAtTime = m.price) ∧
        List.Forall₂ (fun (cc : CartCustomization) (lc : OrderLineCustomization) =>
            lc.customizationId = cc.customizationId ∧
            lc.quantity = effQty cc.quantity ∧
            ∃ cz, findCustomization cat cc.customizationId = some cz ∧
              lc.priceAtTime = cz.price)
          (item.customizations.getD []) line.customizations)
      items o.items ∧
    (createOrder cat store uid lid items).store = store ++ [o] := by
  obtain ⟨priced, hmap, ho, hr⟩ := createOrder_ok h
  have hfor := exceptMap_ok_forall hmap
  subst ho
  refine ⟨rfl, ?_, ?_, by rw [hr]⟩
  · show (priced.map (fun p => p.itemTotal)).sum = orderTotal (priced.map (buildOrderLine cat))
    unfold orderTotal
    rw [List.map_map]
    refine congrArg List.sum (List.map_congr_left ?_)
    intro p hp
    obtain ⟨a, _, hap⟩ := forallRight_of_forall₂ hfor p hp
    exact ((buildOrderLine_spec hap).1).symm
  · show List.Forall₂ _ items (priced.map (buildOrderLine cat))
    rw [List.forall₂_map_right_iff]
    refine hfor.imp ?_
    intro a p hap
    obtain ⟨hlt, hmid, hqty, hpat, hcfor⟩ := buildOrderLine_spec hap
    obtain ⟨hpi, hm, hl, costs, hc, htot⟩ := priceCartItem_ok hap
    exact ⟨hmid, hqty, ⟨p.menuItem, hm, hl, hpat⟩, hcfor⟩

/-- Witness for C1 at the specification's end-to-end scenario: price 10,
quantity 2, one customization of price 2 and quantity 1 — the stored order
is `PENDING` with total `24 = 2×10 + (2×1)×2`. -/
theorem order_creation_snapshot_total_witness :
    orderW.status = .PENDING ∧ orderW.total = orderTotal orderW.items ∧ orderW.total = 24 :=
  ⟨(order_creation_snapshot_total catW [] 9 1 cartW orderW (by decide)).1,
   (order_creation_snapshot_total catW [] 9 1 cartW orderW (by decide)).2.1,
   by decide⟩

/-- C2: a cart entry whose (resolved, available) menu item belongs to a
location other than the target is rejected by the pricing pass with
`LocationMismatch`, and the whole creation fails with some error, leaving
the store unchanged (no Order row, hence no OrderItem or
OrderItemCustomization row, is created) and emitting nothing. -/
theorem creation_location_mismatch_rejected (cat : Catalog) (store : Store)
    (uid lid : Nat) (items : List CartItem) (item : CartItem) (m : Menu)
    (hmem : item ∈ items)
    (hres : findMenuAvailable cat item.menuId = some m)
    (hne : m.locationId ≠ lid) :
    priceCartItem cat lid item = .error (.LocationMismatch item.menuId) ∧
    (∃ e, (createOrder cat store uid lid items).result = .error e) ∧
    (createOrder cat store uid lid items).store = store ∧
    (createOrder cat store uid lid items).events = [] := by
  have hpi : priceCartItem cat lid item = .error (.LocationMismatch item.menuId) := by
    unfold priceCartItem
    rw [hres]
    exact if_pos hne
  refine ⟨hpi, ?_⟩
  by_cases hv : validOrderBody items = true
  · cases hloc : findLocationActive cat lid with
    | none =>
      have hr : createOrder cat store uid lid items = ⟨store, .error .LocationNotFound, []⟩ := by
        unfold createOrder; rw [if_pos hv, hloc]
      rw [hr]
      exact ⟨⟨.LocationNotFound, rfl⟩, rfl, rfl⟩
    | some l =>
      obtain ⟨e2, hmap⟩ := exceptMap_error_of_mem hmem hpi
      have hr : createOrder cat store uid lid items = ⟨store, .error e2, []⟩ := by
        unfold createOrder; rw [if_pos hv, hloc, hmap]
      rw [hr]
      exact ⟨⟨e2, rfl⟩, rfl, rfl⟩
  · have hr : createOrder cat store uid lid items = ⟨store, .error .ValidationFailed, []⟩ := by
      unfold createOrder; rw [if_neg hv]
    rw [hr]
    exact ⟨⟨.ValidationFailed, rfl⟩, rfl, rfl⟩

/-- A catalog with two active locations and menu item `5` at location `2`,
to order at location `1`. -/
def catMismatch : Catalog :=
  ⟨[⟨1, true⟩, ⟨2, true⟩], [⟨5, 10, true, 2⟩], []⟩

/-- Witness for C2: ordering item `5` (location 2) at location 1 is rejected
with `LocationMismatch` and the store stays empty. -/
theorem creation_location_mismatch_rejected_witness :
    priceCartItem catMismatch 1 ⟨5, 1, none⟩ = .error (.LocationMismatch 5) ∧
    (∃ e, (createOrder catMismatch [] 9 1 [⟨5, 1, none⟩]).result = .error e) ∧
    (createOrder catMismatch [] 9 1 [⟨5, 1, none⟩]).store = [] ∧
    (createOrder catMismatch [] 9 1 [⟨5, 1, none⟩]).events = [] :=
  creation_location_mismatch_rejected catMismatch [] 9 1 [⟨5, 1, none⟩] ⟨5, 1, none⟩
    ⟨5, 10, true, 2⟩ (by decide) (by decide) (by decide)

/-- C3: cancel with the order present: a CUSTOMER who does not own the
order gets `Forbidden` (store untouched); an authorized caller (owning
customer or any non-customer role) cancelling an order whose status is not
`PENDING` gets `InvalidTransition` (store untouched); an authorized caller
cancelling a `PENDING` order turns its status to `CANCELLED`. -/
theorem cancel_order_cases (store : Store) (caller : Caller) (orderId : Nat)
    (o : StoredOrder) (hfind : findOrder store orderId = some o) :
    (caller.role = .CUSTOMER ∧ o.userId ≠ caller.id →
      (cancelOrder store caller orderId).result = .error .Forbidden ∧
      (cancelOrder store caller orderId).store = store) ∧
    (¬(caller.role = .CUSTOMER ∧ o.userId ≠ caller.id) → o.status ≠ .PENDING →
      (cancelOrder store caller orderId).result = .error .InvalidTransition ∧
      (cancelOrder store caller orderId).store = store) ∧
    (¬(caller.role = .CUSTOMER ∧ o.userId ≠ caller.id) → o.status = .PENDING →
      (cancelOrder store caller orderId).result = .ok { o with status := .CANCELLED } ∧
      findOrder (cancelOrder store caller orderId).store orderId =
        some { o with status := .CANCELLED }) := by
  refine ⟨?_, ?_, ?_⟩
  · intro hforb
    have hr : cancelOrder store caller orderId = ⟨store, .error .Forbidden, []⟩ := by
      unfold cancelOrder
      rw [hfind]
      exact if_pos hforb
    rw [hr]
    exact ⟨rfl, rfl⟩
  · intro hforb hst
    have hr : cancelOrder store caller orderId = ⟨store, .error .InvalidTransition, []⟩ := by
      unfold cancelOrder
      rw [hfind]
      exact (if_neg hforb).trans (if_pos hst)
    rw [hr]
    exact ⟨rfl, rfl⟩
  · intro hforb hst
    have hr : cancelOrder store caller orderId =
        ⟨updateStoredStatus store orderId .CANCELLED,
         .ok { o with status := .CANCELLED },
         [⟨.location o.locationId, "orderCancelled", { o with status := .CANCELLED }⟩,
          ⟨.user o.userId, "orderCancelled", { o with status := .CANCELLED }⟩]⟩ := by
      unfold cancelOrder
      rw [hfind]
      exact (if_neg hforb).trans (if_neg (not_not_intro hst))
    rw [hr]
    refine ⟨rfl, ?_⟩
    show findOrder (updateStoredStatus store orderId .CANCELLED) orderId = _
    rw [findOrder_updateStoredStatus, hfind]
    rfl

/-- A store holding one `PENDING` order, id 1, owned by user 9 at
location 1. -/
def storePending : Store :=
  [⟨1, 9, 1, .PENDING, 24, []⟩]

/-- Witness for C3: the owning customer cancels their `PENDING` order and
its status becomes `CANCELLED`; a different customer is rejected with
`Forbidden`. -/
theorem cancel_order_cases_witness :
    ((cancelOrder storePending ⟨9, .CUSTOMER⟩ 1).result =
      .ok ⟨1, 9, 1, .CANCELLED, 24, []⟩ ∧
     findOrder (cancelOrder storePending ⟨9, .CUSTOMER⟩ 1).store 1 =
      some ⟨1, 9, 1, .CANCELLED, 24, []⟩) ∧
    ((cancelOrder storePending ⟨8, .CUSTOMER⟩ 1).result = .error .Forbidden ∧
     (cancelOrder storePending ⟨8, .CUSTOMER⟩ 1).store = storePending) :=
  ⟨(cancel_order_cases storePending ⟨9, .CUSTOMER⟩ 1 ⟨1, 9, 1, .PENDING, 24, []⟩
      (by decide)).2.2 (by decide) (by decide),
   (cancel_order_cases storePending ⟨8, .CUSTOMER⟩ 1 ⟨1, 9, 1, .PENDING, 24, []⟩
      (by decide)).1 (by decide)⟩

/-- C4: set-status by a caller whose role is neither KITCHEN nor ADMIN is
rejected with `Forbidden` and the store is untouched; a KITCHEN or ADMIN
caller sets any existing order to any of the four statuses unconditionally,
with no guard on the order's current status. -/
theorem set_status_cases (store : Store) (callerRole : Role) (orderId : Nat)
    (newStatus : OrderStatus) :
    (¬(callerRole = .KITCHEN ∨ callerRole = .ADMIN) →
      (setOrderStatus store callerRole orderId newStatus).result = .error .Forbidden ∧
      (setOrderStatus store callerRole orderId newStatus).store = store) ∧
    ((callerRole = .KITCHEN ∨ callerRole = .ADMIN) →
      ∀ o, findOrder store orderId = some o →
        (setOrderStatus store callerRole orderId newStatus).result =
          .ok { o with status := newStatus } ∧
        findOrder (setOrderStatus store callerRole orderId newStatus).store orderId =
          some { o with status := newStatus }) := by
  constructor
  · intro hrole
    have hb : ¬(requireKitchenOrAdmin callerRole = true) := by
      rw [requireKitchenOrAdmin_iff]
      exact hrole
    have hr : setOrderStatus store callerRole orderId newStatus =
        ⟨store, .error .Forbidden, []⟩ := by
      unfold setOrderStatus
      exact if_neg hb
    rw [hr]
    exact ⟨rfl, rfl⟩
  · intro hrole o hfind
    have hb : requireKitchenOrAdmin callerRole = true :=
      (requireKitchenOrAdmin_iff callerRole).mpr hrole
    have hr : setOrderStatus store callerRole orderId newStatus =
        ⟨updateStoredStatus store orderId newStatus,
         .ok { o with status := newStatus },
         [⟨.location o.locationId, "orderStatusUpdated", { o with status := newStatus }⟩,
          ⟨.user o.userId, "orderStatusUpdated", { o with status := newStatus }⟩]⟩ := by
      unfold setOrderStatus
      rw [if_pos hb, hfind]
    rw [hr]
    refine ⟨rfl, ?_⟩
    show findOrder (updateStoredStatus store orderId newStatus) orderId = _
    rw [findOrder_updateStoredStatus, hfind]
    rfl

/-- Witness for C4: a CUSTOMER is rejected with `Forbidden`; a KITCHEN
caller sets the pending order straight to `COMPLETED`. -/
theorem set_status_cases_witness :
    ((setOrderStatus storePending .CUSTOMER 1 .COMPLETED).result = .error .Forbidden ∧
     (setOrderStatus storePending .CUSTOMER 1 .COMPLETED).store = storePending) ∧
    ((setOrderStatus storePending .KITCHEN 1 .COMPLETED).result =
      .ok ⟨1, 9, 1, .COMPLETED, 24, []⟩ ∧
     findOrder (setOrderStatus storePending .KITCHEN 1 .COMPLETED).store 1 =
      some ⟨1, 9, 1, .COMPLETED, 24, []⟩) :=
  ⟨(set_status_cases storePending .CUSTOMER 1 .COMPLETED).1 (by decide),
   (set_status_cases storePending .KITCHEN 1 .COMPLETED).2 (Or.inl rfl)
     ⟨1, 9, 1, .PENDING, 24, []⟩ (by decide)⟩

/-- A catalog where menu item `5` exists at the (active) target location
but is unavailable (`isAvailable = false`). -/
def catUnavailable : Catalog :=
  ⟨[⟨1, true⟩], [⟨5, 10, false, 1⟩], []⟩

/-- A catalog with the active target location and no menu items at all. -/
def catAbsent : Catalog :=
  ⟨[⟨1, true⟩], [], []⟩

/-- Counterexample to C5: the menu lookup filters on `isAvailable`, so an
existing-but-unavailable item (`catUnavailable`) produces exactly the same
`ItemNotFound` (`Menu item with ID 5 not found`, 404) outcome as a
non-existent id (`catAbsent`) — there is no distinct `ItemUnavailable`
error anywhere in the route. -/
theorem item_unavailable_counterexample :
    priceCartItem catUnavailable 1 ⟨5, 1, none⟩ = .error (.ItemNotFound 5) ∧
    priceCartItem catAbsent 1 ⟨5, 1, none⟩ = .error (.ItemNotFound 5) ∧
    (createOrder catUnavailable [] 9 1 [⟨5, 1, none⟩]).result =
      .error (.ItemNotFound 5) := by
  decide

/-- C5 amended: resolving a cart entry fails with `ItemNotFound` whenever
every menu row with the entry's id is unavailable — covering both the
absent-id case (vacuously) and the exists-but-unavailable case; the two are
indistinguishable and no distinct `ItemUnavailable` error exists. -/
theorem item_resolution_absent_or_unavailable (cat : Catalog) (lid : Nat)
    (item : CartItem)
    (h : ∀ m ∈ cat.menus, m.id = item.menuId → m.isAvailable = false) :
    priceCartItem cat lid item = .error (.ItemNotFound item.menuId) := by
  have hfind : findMenuAvailable cat item.menuId = none := by
    unfold findMenuAvailable
    rw [List.find?_eq_none]
    intro m hm
    simp only [Bool.and_eq_true, beq_iff_eq, not_and]
    intro hid
    rw [h m hm hid]
    simp
  unfold priceCartItem
  rw [hfind]

/-- Witness for the amended C5 at the unavailable-item catalog. -/
theorem item_resolution_absent_or_unavailable_witness :
    priceCartItem catUnavailable 2 ⟨5, 3, none⟩ = .error (.ItemNotFound 5) :=
  item_resolution_absent_or_unavailable catUnavailable 2 ⟨5, 3, none⟩ (by decide)

/-- A store holding one `COMPLETED` (terminal) order. -/
def storeCompleted : Store :=
  [⟨1, 9, 1, .COMPLETED, 24, []⟩]

/-- Counterexample to C6: a KITCHEN caller's set-status moves a COMPLETED
order back to `PENDING` — a terminal status does not freeze the order. -/
theorem terminal_status_counterexample :
    findOrder storeCompleted 1 = some ⟨1, 9, 1, .COMPLETED, 24, []⟩ ∧
    (setOrderStatus storeCompleted .KITCHEN 1 .PENDING).result =
      .ok ⟨1, 9, 1, .PENDING, 24, []⟩ ∧
    findOrder (setOrderStatus storeCompleted .KITCHEN 1 .PENDING).store 1 =
      some ⟨1, 9, 1, .PENDING, 24, []⟩ ∧
    OrderStatus.PENDING ≠ OrderStatus.COMPLETED := by
  decide

/-- C6 amended: a COMPLETED or CANCELLED order is immutable under the
cancel operation — cancel rejects it with an error and leaves the store
untouched.  (Set-status by KITCHEN/ADMIN can still overwrite the status of
such an order.) -/
theorem terminal_cancel_immutable (store : Store) (caller : Caller)
    (orderId : Nat) (o : StoredOrder)
    (hfind : findOrder store orderId = some o)
    (hterm : o.status = .COMPLETED ∨ o.status = .CANCELLED) :
    (cancelOrder store caller orderId).store = store ∧
    (∃ e, (cancelOrder store caller orderId).result = .error e) ∧
    (cancelOrder store caller orderId).events = [] := by
  have hne : o.status ≠ .PENDING := by
    rcases hterm with h | h <;> simp [h]
  by_cases hforb : caller.role = .CUSTOMER ∧ o.userId ≠ caller.id
  · have hr : cancelOrder store caller orderId = ⟨store, .error .Forbidden, []⟩ := by
      unfold cancelOrder
      rw [hfind]
      exact if_pos hforb
    rw [hr]
    exact ⟨rfl, ⟨.Forbidden, rfl⟩, rfl⟩
  · have hr : cancelOrder store caller orderId = ⟨store, .error .InvalidTransition, []⟩ := by
      unfold cancelOrder
      rw [hfind]
      exact (if_neg hforb).trans (if_pos hne)
    rw [hr]
    exact ⟨rfl, ⟨.InvalidTransition, rfl⟩, rfl⟩

/-- Witness for the amended C6: cancelling the COMPLETED order fails and
changes nothing. -/
theorem terminal_cancel_immutable_witness :
    (cancelOrder storeCompleted ⟨9, .CUSTOMER⟩ 1).store = storeCompleted ∧
    (∃ e, (cancelOrder storeCompleted ⟨9, .CUSTOMER⟩ 1).result = .error e) ∧
    (cancelOrder storeCompleted ⟨9, .CUSTOMER⟩ 1).events = [] :=
  terminal_cancel_immutable storeCompleted ⟨9, .CUSTOMER⟩ 1
    ⟨1, 9, 1, .COMPLETED, 24, []⟩ (by decide) (Or.inl rfl)

/-- Counterexample to C7: set-status performs `prisma.order.update` with no
prior lookup, so a non-existent id surfaces as the store's record-not-found
rejection, which is not the route-level `OrderNotFound`
(`createError('Order not found', 404)`) that fetch and cancel produce. -/
theorem set_status_missing_order_counterexample :
    (setOrderStatus ([] : Store) .KITCHEN 1 .COMPLETED).result =
      .error .StoreRecordNotFound ∧
    ApiError.StoreRecordNotFound ≠ ApiError.OrderNotFound ∧
    (cancelOrder ([] : Store) ⟨9, .KITCHEN⟩ 1).result = .error .OrderNotFound := by
  decide

/-- C7 amended: fetch-single and cancel fail with `OrderNotFound` when no
order with the id exists, while set-status (no prior lookup) fails with the
store-level record-not-found error instead; and a CUSTOMER caller sees only
their own orders, both when listing and when fetching a single order. -/
theorem lookup_and_customer_visibility (store : Store) (caller : Caller)
    (orderId : Nat) (newStatus : OrderStatus)
    (statusFilter : Option OrderStatus) (locationFilter : Option Nat) :
    (findOrder store orderId = none →
      getOrderById store caller orderId = .error .OrderNotFound ∧
      (cancelOrder store caller orderId).result = .error .OrderNotFound ∧
      ((caller.role = .KITCHEN ∨ caller.role = .ADMIN) →
        (setOrderStatus store caller.role orderId newStatus).result =
          .error .StoreRecordNotFound)) ∧
    (caller.role = .CUSTOMER →
      (∀ o ∈ listOrders store caller statusFilter locationFilter,
        o.userId = caller.id) ∧
      (∀ o, getOrderById store caller orderId = .ok o → o.userId = caller.id)) := by
  constructor
  · intro hnone
    refine ⟨?_, ?_, ?_⟩
    · unfold getOrderById
      rw [find_none_of_findOrder_none hnone]
    · have hr : cancelOrder store caller orderId = ⟨store, .error .OrderNotFound, []⟩ := by
        unfold cancelOrder
        rw [hnone]
      rw [hr]
    · intro hrole
      have hb : requireKitchenOrAdmin caller.role = true :=
        (requireKitchenOrAdmin_iff caller.role).mpr hrole
      have hr : setOrderStatus store caller.role orderId newStatus =
          ⟨store, .error .StoreRecordNotFound, []⟩ := by
        unfold setOrderStatus
        rw [if_pos hb, hnone]
      rw [hr]
  · intro hrole
    constructor
    · intro o ho
      unfold listOrders at ho
      rw [List.mem_filter] at ho
      have hp := ho.2
      rw [if_pos hrole] at hp
      simp only [Bool.and_eq_true, beq_iff_eq] at hp
      exact hp.1.1
    · intro o h
      unfold getOrderById at h
      cases hfind : store.find? (fun x =>
          x.id == orderId &&
          (if caller.role = Role.CUSTOMER then x.userId == caller.id else true)) with
      | none => rw [hfind] at h; exact absurd h (by simp)
      | some o2 =>
        rw [hfind] at h
        injection h with h
        subst h
        have hp := List.find?_some hfind
        rw [if_pos hrole] at hp
        simp only [Bool.and_eq_true, beq_iff_eq] at hp
        exact hp.2

/-- Witness for the amended C7 on a store holding one order of user 9: a
missing id (2) gives `OrderNotFound` on fetch/cancel and the store error on
set-status; customer 8 listing sees nothing of user 9's orders and customer
9 fetching their own order gets it. -/
theorem lookup_and_customer_visibility_witness :
    (getOrderById storePending ⟨8, .CUSTOMER⟩ 2 = .error .OrderNotFound ∧
     (cancelOrder storePending ⟨8, .CUSTOMER⟩ 2).result = .error .OrderNotFound ∧
     (setOrderStatus storePending .KITCHEN 2 .COMPLETED).result =
      .error .StoreRecordNotFound) ∧
    (∀ o ∈ listOrders storePending ⟨8, .CUSTOMER⟩ none none, o.userId = 8) :=
  ⟨⟨((lookup_and_customer_visibility storePending ⟨8, .CUSTOMER⟩ 2 .COMPLETED
        none none).1 (by decide)).1,
    ((lookup_and_customer_visibility storePending ⟨8, .CUSTOMER⟩ 2 .COMPLETED
        none none).1 (by decide)).2.1,
    ((lookup_and_customer_visibility storePending ⟨8, .KITCHEN⟩ 2 .COMPLETED
        none none).1 (by decide)).2.2 (Or.inl rfl)⟩,
   ((lookup_and_customer_visibility storePending ⟨8, .CUSTOMER⟩ 2 .COMPLETED
        none none).2 rfl).1⟩

/-- Counterexample to C8: on order creation the creating user's personal
channel receives an event named `orderCreated`, which is not among the
three claimed push names (`newOrder`, `orderStatusUpdated`,
`orderCancelled`); only the location channel receives `newOrder`. -/
theorem creation_event_name_counterexample :
    (createOrder catW [] 9 1 cartW).events.map (fun e => e.event) =
      ["newOrder", "orderCreated"] ∧
    (createOrder catW [] 9 1 cartW).events.map (fun e => e.channel) =
      [.location 1, .user 9] ∧
    ("orderCreated" : String) ∉
      (["newOrder", "orderStatusUpdated", "orderCancelled"] : List String) := by
  decide

/-- C8 amended: the server-to-client pushes are `newOrder` (location
channel) and `orderCreated` (user channel) on creation, `orderStatusUpdated`
on both channels on set-status, and `orderCancelled` on both channels on
cancel — each carrying the full stored order. -/
theorem lifecycle_event_table (cat : Catalog) (store : Store) (uid lid : Nat)
    (items : List CartItem) (caller : Caller) (role : Role) (orderId : Nat)
    (newStatus : OrderStatus) (o : StoredOrder) :
    ((createOrder cat store uid lid items).result = .ok o →
      (createOrder cat store uid lid items).events =
        [⟨.location lid, "newOrder", o⟩, ⟨.user uid, "orderCreated", o⟩]) ∧
    ((setOrderStatus store role orderId newStatus).result = .ok o →
      (setOrderStatus store role orderId newStatus).events =
        [⟨.location o.locationId, "orderStatusUpdated", o⟩,
         ⟨.user o.userId, "orderStatusUpdated", o⟩]) ∧
    ((cancelOrder store caller orderId).result = .ok o →
      (cancelOrder store caller orderId).events =
        [⟨.location o.locationId, "orderCancelled", o⟩,
         ⟨.user o.userId, "orderCancelled", o⟩]) := by
  refine ⟨?_, ?_, ?_⟩
  · intro h
    obtain ⟨priced, hmap, ho, hr⟩ := createOrder_ok h
    rw [hr]
  · intro h
    by_cases hb : requireKitchenOrAdmin role = true
    · cases hfind : findOrder store orderId with
      | none =>
        have hr : setOrderStatus store role orderId newStatus =
            ⟨store, .error .StoreRecordNotFound, []⟩ := by
          unfold setOrderStatus
          rw [if_pos hb, hfind]
        rw [hr] at h
        exact absurd h (by simp)
      | some o0 =>
        have hr : setOrderStatus store role orderId newStatus =
            ⟨updateStoredStatus store orderId newStatus,
             .ok { o0 with status := newStatus },
             [⟨.location o0.locationId, "orderStatusUpdated", { o0 with status := newStatus }⟩,
              ⟨.user o0.userId, "orderStatusUpdated", { o0 with status := newStatus }⟩]⟩ := by
          unfold setOrderStatus
          rw [if_pos hb, hfind]
        rw [hr] at h ⊢
        have ho : { o0 with status := newStatus } = o := by
          have h2 : Except.ok ({ o0 with status := newStatus }) = Except.ok o := h
          injection h2
        rw [← ho]
    · have hr : setOrderStatus store role orderId newStatus =
          ⟨store, .error .Forbidden, []⟩ := by
        unfold setOrderStatus
        exact if_neg hb
      rw [hr] at h
      exact absurd h (by simp)
  · intro h
    cases hfind : findOrder store orderId with
    | none =>
      have hr : cancelOrder store caller orderId = ⟨store, .error .OrderNotFound, []⟩ := by
        unfold cancelOrder
        rw [hfind]
      rw [hr] at h
      exact absurd h (by simp)
    | some o0 =>
      by_cases hforb : caller.role = .CUSTOMER ∧ o0.userId ≠ caller.id
      · have hr : cancelOrder store caller orderId = ⟨store, .error .Forbidden, []⟩ := by
          unfold cancelOrder
          rw [hfind]
          exact if_pos hforb
        rw [hr] at h
        exact absurd h (by simp)
      · by_cases hst : o0.status = .PENDING
        · have hr : cancelOrder store caller orderId =
              ⟨updateStoredStatus store orderId .CANCELLED,
               .ok { o0 with status := .CANCELLED },
               [⟨.location o0.locationId, "orderCancelled", { o0 with status := .CANCELLED }⟩,
                ⟨.user o0.userId, "orderCancelled", { o0 with status := .CANCELLED }⟩]⟩ := by
            unfold cancelOrder
            rw [hfind]
            exact (if_neg hforb).trans (if_neg (not_not_intro hst))
          rw [hr] at h ⊢
          have ho : { o0 with status := OrderStatus.CANCELLED } = o := by
            have h2 : Except.ok ({ o0 with status := OrderStatus.CANCELLED }) = Except.ok o := h
            injection h2
          rw [← ho]
        · have hr : cancelOrder store caller orderId =
              ⟨store, .error .InvalidTransition, []⟩ := by
            unfold cancelOrder
            rw [hfind]
            exact (if_neg hforb).trans (if_pos hst)
          rw [hr] at h
          exact absurd h (by simp)

/-- Witness for the amended C8: concrete creation, set-status and cancel
each emit exactly the stated events. -/
theorem lifecycle_event_table_witness :
    (createOrder catW [] 9 1 cartW).events =
      [⟨.location 1, "newOrder", orderW⟩, ⟨.user 9, "orderCreated", orderW⟩] ∧
    (setOrderStatus storePending .KITCHEN 1 .IN_PROGRESS).events =
      [⟨.location 1, "orderStatusUpdated", ⟨1, 9, 1, .IN_PROGRESS, 24, []⟩⟩,
       ⟨.user 9, "orderStatusUpdated", ⟨1, 9, 1, .IN_PROGRESS, 24, []⟩⟩] ∧
    (cancelOrder storePending ⟨9, .CUSTOMER⟩ 1).events =
      [⟨.location 1, "orderCancelled", ⟨1, 9, 1, .CANCELLED, 24, []⟩⟩,
       ⟨.user 9, "orderCancelled", ⟨1, 9, 1, .CANCELLED, 24, []⟩⟩] :=
  ⟨(lifecycle_event_table catW [] 9 1 cartW ⟨9, .CUSTOMER⟩ .KITCHEN 1 .PENDING
      orderW).1 (by decide),
   (lifecycle_event_table catW storePending 9 1 cartW ⟨9, .CUSTOMER⟩ .KITCHEN 1
      .IN_PROGRESS ⟨1, 9, 1, .IN_PROGRESS, 24, []⟩).2.1 (by decide),
   (lifecycle_event_table catW storePending 9 1 cartW ⟨9, .CUSTOMER⟩ .KITCHEN 1
      .IN_PROGRESS ⟨1, 9, 1, .CANCELLED, 24, []⟩).2.2 (by decide)⟩

/-- C9: registration (which requires no authentication — the route carries
no identity argument) accepts any caller-supplied role from
`{CUSTOMER, WAITER, KITCHEN, ADMIN}` and persists the user with exactly
that role when the email is unused; when the role field is absent the
persisted role is `CUSTOMER`.  In particular an unauthenticated caller can
create an `ADMIN` account. -/
theorem register_role_persisted (users : List UserRow) (email password r : String)
    (hr : r ∈ roleStrings) (hlen : 6 ≤ password.length)
    (hfree : ∀ u ∈ users, u.email ≠ email) :
    (register users email password (some r)).2 =
      .ok ⟨users.length + 1, email, r⟩ ∧
    (⟨users.length + 1, email, r⟩ : UserRow) ∈
      (register users email password (some r)).1 ∧
    (register users email password none).2 =
      .ok ⟨users.length + 1, email, "CUSTOMER"⟩ := by
  have hany : users.any (fun u => u.email == email) = false := by
    rw [List.any_eq_false]
    intro u hu
    simpa using hfree u hu
  have hnotany : ¬(users.any (fun u => u.email == email) = true) := by
    rw [hany]
    exact Bool.false_ne_true
  have hreg1 : register users email password (some r) =
      (users ++ [⟨users.length + 1, email, r⟩],
       .ok ⟨users.length + 1, email, r⟩) := by
    unfold register
    rw [if_pos (by simp [hlen, hr]), if_neg hnotany]
    rfl
  have hreg2 : register users email password none =
      (users ++ [⟨users.length + 1, email, "CUSTOMER"⟩],
       .ok ⟨users.length + 1, email, "CUSTOMER"⟩) := by
    unfold register
    rw [if_pos (by simp [hlen]), if_neg hnotany]
    rfl
  rw [hreg1, hreg2]
  exact ⟨rfl, List.mem_append_right _ (List.mem_singleton.mpr rfl), rfl⟩

/-- Witness for C9: an unauthenticated register call with role `ADMIN`
creates an `ADMIN` user. -/
theorem register_role_persisted_witness :
    (register [] "a@b.c" "secret" (some "ADMIN")).2 =
      .ok ⟨1, "a@b.c", "ADMIN"⟩ ∧
    (⟨1, "a@b.c", "ADMIN"⟩ : UserRow) ∈
      (register [] "a@b.c" "secret" (some "ADMIN")).1 ∧
    (register [] "a@b.c" "secret" none).2 = .ok ⟨1, "a@b.c", "CUSTOMER"⟩ :=
  register_role_persisted [] "a@b.c" "secret" "ADMIN" (by decide) (by decide)
    (by decide)

/-- C10: customization quantities are never validated and pass through
`customization.quantity || 1`: an absent field and `0` become `1`, any
other value — negative included — is used as-is; order-body validation is
insensitive to the customizations field; and for every successfully priced
cart entry the persisted snapshot quantities are exactly these effective
values and the entry's total is computed from those same snapshot
quantities. -/
theorem customization_quantity_passthrough (v : Int) (hv : v ≠ 0) :
    (effQty none = 1 ∧ effQty (some 0) = 1 ∧ effQty (some v) = v) ∧
    (∀ (items : List CartItem) (g : CartItem → Option (List CartCustomization)),
      validOrderBody (items.map (fun it => { it with customizations := g it })) =
        validOrderBody items) ∧
    (∀ (cat : Catalog) (lid : Nat) (item : CartItem) (p : PricedItem),
      priceCartItem cat lid item = .ok p →
        List.Forall₂ (fun (cc : CartCustomization) (lc : OrderLineCustomization) =>
            lc.quantity = effQty cc.quantity)
          (item.customizations.getD []) (buildOrderLine cat p).customizations ∧
        p.itemTotal = p.menuItem.price * item.quantity +
          lineCustCost (buildOrderLine cat p).customizations * item.quantity) := by
  refine ⟨⟨rfl, rfl, by simp [effQty, hv]⟩, ?_, ?_⟩
  · intro items g
    unfold validOrderBody
    rw [List.length_map, List.all_map]
    rfl
  · intro cat lid item p hok
    obtain ⟨hpi, hm, hl, costs, hc, htot⟩ := priceCartItem_ok hok
    obtain ⟨hf2, hsum⟩ := custList_ok hc
    constructor
    · have : (buildOrderLine cat p).customizations =
          (item.customizations.getD []).filterMap (snapCustomization cat) := by
        simp [buildOrderLine, hpi]
      rw [this]
      exact hf2.imp (fun cc lc hcc => hcc.2.1)
    · rw [htot]
      have : lineCustCost (buildOrderLine cat p).customizations = costs.sum := by
        rw [show (buildOrderLine cat p).customizations =
            (item.customizations.getD []).filterMap (snapCustomization cat) by
          simp [buildOrderLine, hpi]]
        exact hsum
      rw [this]

/-- Witness for C10 at `v = -3`: a negative customization quantity passes
through unvalidated, both into the stored snapshot and the total. -/
theorem customization_quantity_passthrough_witness :
    effQty none = 1 ∧ effQty (some 0) = 1 ∧ effQty (some (-3)) = -3 :=
  (customization_quantity_passthrough (-3) (by decide)).1

end RestaurantServer
